import Mathlib

/-!
Shallow embedding of the aligned-memory allocation utility in
`Siv3D/Include/Siv3D/AlignedMemory.hpp` (OpenSiv3D).

Pointers are modelled as natural numbers (the numeric address), with `0`
playing the role of the null pointer.  Machine (`size_t`) arithmetic is
modelled as `Nat` arithmetic reduced modulo `2 ^ bits`, where `bits` is the
platform word width.  Exceptions are modelled with `Except`; heap effects
(allocation requests, frees, constructor and destructor invocations) are
modelled as explicit event traces.
-/

/-- Events observable by a test harness watching the platform allocator and
the in-place construct/destruct calls. -/
inductive Event where
  | allocReq (size align result : Nat)
  | freeCall (addr : Nat)
  | construct (addr : Nat)
  | destruct (addr : Nat)
deriving DecidableEq, Repr

/-- Errors a helper can signal: `badAlloc` models `std::bad_alloc`, and
`ctorEx e` models an arbitrary exception `e` thrown by the in-place
constructor of the target type. -/
inductive CppError where
  | badAlloc
  | ctorEx (e : Nat)
deriving DecidableEq, Repr

/-- Model of a C++ type as seen by the allocator: its `sizeof` and its
natural alignment `alignof`. -/
structure CppType where
  size : Nat
  align : Nat
deriving DecidableEq, Repr

/-- Model of the build platform and of its aligned-allocation primitive.

* `bits` is the width of `size_t`.
* `isWindows` selects the preprocessor branch of `AlignedMalloc`
  (`_aligned_malloc` vs `posix_memalign`).
* `prim size align` is the platform primitive: `some a` means it succeeded
  and produced the block address `a` (never the null address `0`);
  `none` means it failed.  On Windows, `_aligned_malloc` reports failure by
  returning the null pointer.  On POSIX, `posix_memalign` reports failure
  through its `int` result and leaves `*memptr` unmodified
  (POSIX.1-2008 TC2), so the local `Type* p` keeps its indeterminate
  initial value; that indeterminate value is modelled by `posixLeftover`.
-/
structure Platform where
  bits : Nat
  isWindows : Bool
  prim : Nat → Nat → Option Nat
  posixLeftover : Nat

/-- Byte count handed to the platform primitive by `AlignedMalloc`:
`sizeof(Type) * n` computed in `size_t` arithmetic, i.e. the product
wrapped modulo `2 ^ bits`. -/
def allocRequestBytes (bits size n : Nat) : Nat :=
  (size * n) % 2 ^ bits

/-- Embedding of `AlignedMalloc<Type, Alignment>(n)`: requests
`sizeof(Type) * n` bytes at the given alignment from the platform
primitive.  Returns the resulting pointer together with the trace of the
single allocation request.  On the Windows branch a failed primitive call
yields the null pointer; on the POSIX branch the code ignores the
`posix_memalign` result code and returns the uninitialized `p`, modelled
by `env.posixLeftover`. -/
def AlignedMalloc (env : Platform) (size align n : Nat) : Nat × List Event :=
  match env.prim (allocRequestBytes env.bits size n) align with
  | some a => (a, [Event.allocReq (allocRequestBytes env.bits size n) align a])
  | none =>
      if env.isWindows then
        (0, [Event.allocReq (allocRequestBytes env.bits size n) align 0])
      else
        (env.posixLeftover,
          [Event.allocReq (allocRequestBytes env.bits size n) align
            env.posixLeftover])

/-- Embedding of `AlignedFree(p)`: forwards `p` to `_aligned_free` / `free`,
both of which do nothing when given the null pointer. -/
def AlignedFree (p : Nat) : List Event :=
  if p = 0 then [] else [Event.freeCall p]

/-- Embedding of `HasAlignment<Type>`:
`alignof(Type) > SIV3D_ALLOCATOR_MIN_ALIGNMENT`.  The configuration
constant `SIV3D_ALLOCATOR_MIN_ALIGNMENT` is supplied by the build
(it is not defined in this header), so it is a parameter here. -/
def HasAlignment (minAlignment : Nat) (T : CppType) : Bool :=
  decide (T.align > minAlignment)

/-- Embedding of `AlignedNew<Type>(args...)`: allocates one instance with
`AlignedMalloc<Type>()`, throws `std::bad_alloc` when the pointer is null,
otherwise constructs in place; when the constructor throws, frees the block
with `AlignedFree` and rethrows.  `ctorEx = some e` means the constructor
of `Type` throws `e`; `none` means construction succeeds. -/
def AlignedNew (env : Platform) (T : CppType) (ctorEx : Option Nat) :
    Except CppError Nat × List Event :=
  if (AlignedMalloc env T.size T.align 1).1 = 0 then
    (Except.error CppError.badAlloc, (AlignedMalloc env T.size T.align 1).2)
  else
    match ctorEx with
    | some e =>
        (Except.error (CppError.ctorEx e),
          (AlignedMalloc env T.size T.align 1).2 ++
            Event.construct (AlignedMalloc env T.size T.align 1).1 ::
              AlignedFree (AlignedMalloc env T.size T.align 1).1)
    | none =>
        (Except.ok (AlignedMalloc env T.size T.align 1).1,
          (AlignedMalloc env T.size T.align 1).2 ++
            [Event.construct (AlignedMalloc env T.size T.align 1).1])

/-- Embedding of `AlignedDelete<Type>(p)`: returns immediately on null,
otherwise runs the destructor explicitly and then `AlignedFree(p)`. -/
def AlignedDelete (p : Nat) : List Event :=
  if p = 0 then [] else Event.destruct p :: AlignedFree p

/-- Implementation selected by the `MakeUnique` overload set. -/
inductive UniqueImpl where
  | stdMakeUnique
  | alignedUnique
deriving DecidableEq, Repr

/-- Implementation selected by the `MakeShared` overload set. -/
inductive SharedImpl where
  | stdMakeShared
  | alignedShared
deriving DecidableEq, Repr

/-- Guard of the default-path `MakeUnique` overload:
`std::enable_if_t<!HasAlignment<Type>::value>`. -/
def MakeUniqueDefaultGuard (minAlignment : Nat) (T : CppType) : Bool :=
  !(HasAlignment minAlignment T)

/-- Guard of the aligned-path `MakeUnique` overload:
`std::enable_if_t<HasAlignment<Type>::value>`. -/
def MakeUniqueAlignedGuard (minAlignment : Nat) (T : CppType) : Bool :=
  HasAlignment minAlignment T

/-- Guard of the default-path `MakeShared` overload:
`std::enable_if_t<!HasAlignment<Type>::value>`. -/
def MakeSharedDefaultGuard (minAlignment : Nat) (T : CppType) : Bool :=
  !(HasAlignment minAlignment T)

/-- Guard of the aligned-path `MakeShared` overload:
`std::enable_if_t<HasAlignment<Type>::value>`. -/
def MakeSharedAlignedGuard (minAlignment : Nat) (T : CppType) : Bool :=
  HasAlignment minAlignment T

/-- Overload resolution for `MakeUnique<Type>`: the overload whose
`enable_if` guard holds is selected; the aligned overload forwards to
`AlignedUnique` (a `unique_ptr` with `AlignedDeleter` around
`AlignedNew`), the other to `std::make_unique`. -/
def MakeUniqueImpl (minAlignment : Nat) (T : CppType) : UniqueImpl :=
  if MakeUniqueAlignedGuard minAlignment T then UniqueImpl.alignedUnique
  else UniqueImpl.stdMakeUnique

/-- Overload resolution for `MakeShared<Type>`: the overload whose
`enable_if` guard holds is selected; the aligned overload wraps
`AlignedNew` with `AlignedDeleter` in a `shared_ptr`, the other calls
`std::make_shared`. -/
def MakeSharedImpl (minAlignment : Nat) (T : CppType) : SharedImpl :=
  if MakeSharedAlignedGuard minAlignment T then SharedImpl.alignedShared
  else SharedImpl.stdMakeShared

/-- C++ remainder `x % y` on unsigned operands: defined only for a nonzero
divisor (remainder by zero is undefined behavior). -/
def cppRem (x y : Nat) : Option Nat :=
  if y = 0 then none else some (x % y)

/-- Embedding of `IsAligned(p, alignment)`:
`(reinterpret_cast<size_t>(p) % alignment) == 0`, with the C++ remainder
modelled by `cppRem`. -/
def IsAligned (p align : Nat) : Option Bool :=
  (cppRem p align).map (fun r => r == 0)

/-- Every call to `AlignedMalloc` issues exactly one request to the
platform primitive, for `sizeof(Type) * n` bytes (in `size_t` arithmetic)
at the requested alignment, and records the returned pointer. -/
theorem alignedMalloc_snd (env : Platform) (size align n : Nat) :
    (AlignedMalloc env size align n).2 =
      [Event.allocReq (allocRequestBytes env.bits size n) align
        (AlignedMalloc env size align n).1] := by
  unfold AlignedMalloc
  cases env.prim (allocRequestBytes env.bits size n) align with
  | some a => rfl
  | none => by_cases hw : env.isWindows <;> simp [hw]

/-- Claim C1: `AlignedMalloc` is supposed to signal allocation failure only
by returning a null pointer (and never throws).  The Windows branch does:
a failed `_aligned_malloc` yields the null pointer.  The POSIX branch does
not: the result code of `posix_memalign` is ignored and the uninitialized
local `p` — unmodified by a failed `posix_memalign` — is returned, so a
failed allocation can hand a non-null indeterminate pointer (here `1`) to
the caller. -/
theorem alignedMalloc_failure_null_divergence :
    (AlignedMalloc ⟨64, true, fun _ _ => none, 1⟩ 4 8 1).1 = 0 ∧
    (AlignedMalloc ⟨64, false, fun _ _ => none, 1⟩ 4 8 1).1 = 1 := by
  exact ⟨rfl, rfl⟩

/-- Claim C2: whenever `AlignedMalloc` hands `AlignedNew` a non-null block
and the in-place constructor throws, the block is freed exactly once
(exactly one `freeCall` for that address in the trace) and the very same
exception is re-signaled to the caller. -/
theorem alignedNew_ctor_failure_frees_once_and_rethrows
    (env : Platform) (T : CppType) (e : Nat)
    (h : (AlignedMalloc env T.size T.align 1).1 ≠ 0) :
    (AlignedNew env T (some e)).1 = Except.error (CppError.ctorEx e) ∧
    ((AlignedNew env T (some e)).2.count
        (Event.freeCall (AlignedMalloc env T.size T.align 1).1)) = 1 := by
  constructor
  · simp [AlignedNew, h]
  · rw [AlignedNew.eq_def]
    rw [if_neg h]
    rw [alignedMalloc_snd]
    simp [AlignedFree, h, List.count_append, List.count_cons]

/-- Witness for claim C2 at a concrete platform, type and exception. -/
theorem alignedNew_ctor_failure_frees_once_and_rethrows_witness :
    (AlignedNew ⟨64, true, fun _ _ => some 16, 0⟩ ⟨4, 4⟩ (some 7)).1 =
        Except.error (CppError.ctorEx 7) ∧
    ((AlignedNew ⟨64, true, fun _ _ => some 16, 0⟩ ⟨4, 4⟩ (some 7)).2.count
        (Event.freeCall
          (AlignedMalloc ⟨64, true, fun _ _ => some 16, 0⟩ 4 4 1).1)) = 1 :=
  alignedNew_ctor_failure_frees_once_and_rethrows
    ⟨64, true, fun _ _ => some 16, 0⟩ ⟨4, 4⟩ 7 (by decide)

/-- Claim C3: when the allocation inside `AlignedNew` yields the null
pointer, `AlignedNew` signals `std::bad_alloc` and the constructor is never
invoked (no `construct` event), and a pointer returned normally by
`AlignedNew` is never null. -/
theorem alignedNew_null_alloc_throws_bad_alloc
    (env : Platform) (T : CppType) (ctorEx : Option Nat) :
    ((AlignedMalloc env T.size T.align 1).1 = 0 →
      (AlignedNew env T ctorEx).1 = Except.error CppError.badAlloc ∧
      ∀ a, Event.construct a ∉ (AlignedNew env T ctorEx).2) ∧
    (∀ p, (AlignedNew env T ctorEx).1 = Except.ok p → p ≠ 0) := by
  constructor
  · intro h0
    constructor
    · simp [AlignedNew, h0]
    · intro a
      rw [AlignedNew.eq_def]
      rw [if_pos h0]
      rw [alignedMalloc_snd]
      simp
  · intro p hp
    by_cases h0 : (AlignedMalloc env T.size T.align 1).1 = 0
    · simp [AlignedNew, h0] at hp
    · cases hctor : ctorEx with
      | some e => simp [AlignedNew, h0, hctor] at hp
      | none =>
          simp [AlignedNew, h0, hctor] at hp
          exact hp ▸ h0

/-- Witness for claim C3: a failing Windows-path allocation makes
`AlignedNew` signal `bad_alloc`. -/
theorem alignedNew_null_alloc_throws_bad_alloc_witness :
    (AlignedNew ⟨64, true, fun _ _ => none, 0⟩ ⟨4, 4⟩ none).1 =
      Except.error CppError.badAlloc :=
  ((alignedNew_null_alloc_throws_bad_alloc
      ⟨64, true, fun _ _ => none, 0⟩ ⟨4, 4⟩ none).1 (by decide)).1

/-- Claim C4: `HasAlignment<Type>::value` holds exactly when the type's
natural alignment strictly exceeds `SIV3D_ALLOCATOR_MIN_ALIGNMENT`. -/
theorem hasAlignment_iff_align_gt_min (minAlignment : Nat) (T : CppType) :
    HasAlignment minAlignment T = true ↔ minAlignment < T.align := by
  simp [HasAlignment]

/-- Witness for claim C4 at alignment 64 against a minimum of 16. -/
theorem hasAlignment_iff_align_gt_min_witness :
    HasAlignment 16 ⟨64, 64⟩ = true :=
  (hasAlignment_iff_align_gt_min 16 ⟨64, 64⟩).mpr (by decide)

/-- Claim C5: the `MakeUnique` / `MakeShared` overload sets dispatch on
`HasAlignment`: the default path (`std::make_unique` / `std::make_shared`)
is selected exactly when it is false, the aligned path (`AlignedNew` with
`AlignedDeleter`) exactly when it is true, and in each overload set the two
`enable_if` guards are exact complements, hence exhaustive and mutually
exclusive. -/
theorem makeUnique_makeShared_dispatch (minAlignment : Nat) (T : CppType) :
    (HasAlignment minAlignment T = false →
      MakeUniqueImpl minAlignment T = UniqueImpl.stdMakeUnique ∧
      MakeSharedImpl minAlignment T = SharedImpl.stdMakeShared) ∧
    (HasAlignment minAlignment T = true →
      MakeUniqueImpl minAlignment T = UniqueImpl.alignedUnique ∧
      MakeSharedImpl minAlignment T = SharedImpl.alignedShared) ∧
    MakeUniqueDefaultGuard minAlignment T =
      !MakeUniqueAlignedGuard minAlignment T ∧
    MakeSharedDefaultGuard minAlignment T =
      !MakeSharedAlignedGuard minAlignment T := by
  refine ⟨?_, ?_, rfl, rfl⟩
  · intro h
    constructor <;>
      simp [MakeUniqueImpl, MakeSharedImpl, MakeUniqueAlignedGuard,
        MakeSharedAlignedGuard, h]
  · intro h
    constructor <;>
      simp [MakeUniqueImpl, MakeSharedImpl, MakeUniqueAlignedGuard,
        MakeSharedAlignedGuard, h]

/-- Witness for claim C5: a type of alignment 4 under minimum 16 takes the
default path in both factories. -/
theorem makeUnique_makeShared_dispatch_witness :
    MakeUniqueImpl 16 ⟨4, 4⟩ = UniqueImpl.stdMakeUnique ∧
    MakeSharedImpl 16 ⟨4, 4⟩ = SharedImpl.stdMakeShared :=
  (makeUnique_makeShared_dispatch 16 ⟨4, 4⟩).1 (by decide)

/-- Claim C6, counterexample: at alignment 0 the claim fails as stated.
The address 0 is (vacuously) an exact multiple of 0, yet `IsAligned(0, 0)`
does not return true: it performs a remainder by zero, which is undefined
behavior in C++ (modelled as `none`). -/
theorem isAligned_zero_alignment_counterexample :
    ¬ (IsAligned 0 0 = some true ↔ (0 : Nat) ∣ 0) := by
  decide

/-- Claim C6 (amended to nonzero alignment): for every pointer and every
alignment `a > 0`, `IsAligned` is a pure predicate returning true exactly
when the pointer's numeric address is an exact multiple of `a`. -/
theorem isAligned_iff_dvd (p a : Nat) (h : a ≠ 0) :
    IsAligned p a = some true ↔ a ∣ p := by
  simp [IsAligned, cppRem, h, Nat.dvd_iff_mod_eq_zero]

/-- Witness for claim C6 at pointer 8, alignment 4. -/
theorem isAligned_iff_dvd_witness :
    IsAligned 8 4 = some true :=
  (isAligned_iff_dvd 8 4 (by decide)).mpr (by decide)

/-- Claim C7: `AlignedFree` and `AlignedDelete` are no-ops on the null
pointer (no destructor call, no release), and on a non-null pointer
`AlignedDelete` invokes the destructor first and then releases the
block. -/
theorem alignedFree_alignedDelete_null_noop (p : Nat) (h : p ≠ 0) :
    AlignedFree 0 = [] ∧ AlignedDelete 0 = [] ∧
    AlignedDelete p = [Event.destruct p, Event.freeCall p] := by
  refine ⟨rfl, rfl, ?_⟩
  simp [AlignedDelete, AlignedFree, h]

/-- Witness for claim C7 at pointer 8. -/
theorem alignedFree_alignedDelete_null_noop_witness :
    AlignedFree 0 = [] ∧ AlignedDelete 0 = [] ∧
    AlignedDelete 8 = [Event.destruct 8, Event.freeCall 8] :=
  alignedFree_alignedDelete_null_noop 8 (by decide)

/-- Claim C8: the byte count `AlignedMalloc` requests from the platform
primitive is `sizeof(Type) * n` computed in `size_t` arithmetic: the
product reduced modulo `2 ^ bits`, hence the exact mathematical product
whenever it fits in a machine word. -/
theorem alignedMalloc_requests_size_times_count
    (env : Platform) (size align n : Nat) :
    (AlignedMalloc env size align n).2 =
      [Event.allocReq (allocRequestBytes env.bits size n) align
        (AlignedMalloc env size align n).1] ∧
    allocRequestBytes env.bits size n = (size * n) % 2 ^ env.bits ∧
    (size * n < 2 ^ env.bits → allocRequestBytes env.bits size n = size * n) := by
  refine ⟨alignedMalloc_snd env size align n, rfl, ?_⟩
  intro h
  exact Nat.mod_eq_of_lt h

/-- Witness for claim C8 on a 64-bit platform, size 8, count 3. -/
theorem alignedMalloc_requests_size_times_count_witness :
    allocRequestBytes 64 8 3 = 8 * 3 :=
  (alignedMalloc_requests_size_times_count
      ⟨64, true, fun _ _ => none, 0⟩ 8 16 3).2.2 (by norm_num)

/-- Claim C9: even against a platform primitive that returns aligned
pointers on every success (here vacuously: it always fails), the POSIX
branch of `AlignedMalloc` can return a non-null pointer that is not
aligned to the requested boundary: with the primitive failing and the
uninitialized `p` holding 1, `AlignedMalloc` for a type of size 8 and
alignment 2 returns the non-null pointer 1 with `IsAligned(1, 2)` false. -/
theorem alignedMalloc_posix_failure_misaligned :
    (∀ s a r : Nat,
      (fun (_ : Nat) (_ : Nat) => (none : Option Nat)) s a = some r →
        r % a = 0) ∧
    (AlignedMalloc ⟨64, false, fun _ _ => none, 1⟩ 8 2 1).1 ≠ 0 ∧
    IsAligned (AlignedMalloc ⟨64, false, fun _ _ => none, 1⟩ 8 2 1).1 2 =
      some false := by
  refine ⟨?_, by decide, rfl⟩
  intro s a r hsome
  simp at hsome

/-- Claim C10: `IsAligned` computes the address modulo the alignment, so it
is undefined (division by zero) at alignment 0, and total — the
zero-divisor branch unreachable — for every positive alignment. -/
theorem isAligned_total_iff_alignment_pos (p a : Nat) (h : 0 < a) :
    IsAligned p 0 = none ∧ (IsAligned p a).isSome = true := by
  refine ⟨rfl, ?_⟩
  simp [IsAligned, cppRem, Nat.pos_iff_ne_zero.mp h]

/-- Witness for claim C10 at pointer 5, alignment 3. -/
theorem isAligned_total_iff_alignment_pos_witness :
    IsAligned 5 0 = none ∧ (IsAligned 5 3).isSome = true :=
  isAligned_total_iff_alignment_pos 5 3 (by decide)
